import Mathlib

/-
  Verification development for the edge-c2-sim simulator core.

  Shallow embedding of the simulator's clock, waypoint movement,
  intercept movement, sensor noise, and event engine, translated from
  the Python sources:
    - simulator/core/clock.py
    - simulator/movement/waypoint.py
    - simulator/movement/intercept.py
    - simulator/movement/noise.py
    - simulator/scenario/event_engine.py
    - simulator/scenario/loader.py (ENTITY_TYPES, ScenarioEvent)
    - simulator/core/entity.py, simulator/core/entity_store.py

  Numbers (Python floats, datetimes and timedeltas) are modelled as real
  numbers; datetimes and timedeltas are both represented as seconds.
  Mutation is modelled by explicit state passing: a Python method that
  mutates `self` becomes a Lean function returning the updated record.
-/

set_option maxHeartbeats 1000000

namespace EdgeC2Sim

/-! ## Basic data types (simulator/movement/waypoint.py) -/

/-- Metadata mappings (Python `dict[str, Any]`), modelled as association
lists of strings; the simulator core treats them opaquely. -/
abbrev MetaMap := List (String × String)

/-- Interpolated entity state at a point in time (`MovementState`). -/
structure MovementState where
  lat : ℝ
  lon : ℝ
  alt_m : ℝ
  heading_deg : ℝ
  speed_knots : ℝ
  course_deg : ℝ
  metadata_overrides : Option MetaMap := none

/-- A single waypoint in a movement plan (`Waypoint`).  `time_offset` is a
duration from scenario start, in seconds. -/
structure Waypoint where
  lat : ℝ
  lon : ℝ
  alt_m : ℝ := 0
  speed_knots : ℝ := 0
  time_offset : ℝ := 0
  metadata_overrides : Option MetaMap := none

/-! ## Real-number helpers for the Python math library -/

/-- `math.radians`. -/
noncomputable def radians (x : ℝ) : ℝ := x * Real.pi / 180

/-- `math.degrees`. -/
noncomputable def degrees (x : ℝ) : ℝ := x * 180 / Real.pi

/-- `math.atan2 y x` (note the argument order), defined piecewise from
`Real.arctan` exactly as the two-argument arctangent. -/
noncomputable def atan2 (y x : ℝ) : ℝ :=
  if 0 < x then Real.arctan (y / x)
  else if x < 0 then
    (if 0 ≤ y then Real.arctan (y / x) + Real.pi else Real.arctan (y / x) - Real.pi)
  else
    (if 0 < y then Real.pi / 2 else if y < 0 then -(Real.pi / 2) else 0)

/-- Python's `%` on reals with a positive modulus: floored modulo,
`a - b * ⌊a / b⌋`, giving a result in `[0, b)` for `b > 0`. -/
noncomputable def pyMod (a b : ℝ) : ℝ := a - b * ⌊a / b⌋

/-- `_initial_bearing` (waypoint.py): initial bearing (forward azimuth)
between two points, in degrees `[0, 360)`. -/
noncomputable def initial_bearing (lat1 lon1 lat2 lon2 : ℝ) : ℝ :=
  let lat1_r := radians lat1
  let lat2_r := radians lat2
  let dlon_r := radians (lon2 - lon1)
  let x := Real.sin dlon_r * Real.cos lat2_r
  let y := Real.cos lat1_r * Real.sin lat2_r -
    Real.sin lat1_r * Real.cos lat2_r * Real.cos dlon_r
  pyMod (degrees (atan2 x y)) 360

/-- `_interpolate_geodesic` (waypoint.py): interpolate along the great
circle between two points; `fraction` 0 = start, 1 = end. -/
noncomputable def interpolate_geodesic (lat1 lon1 lat2 lon2 fraction : ℝ) : ℝ × ℝ :=
  if fraction ≤ 0 then (lat1, lon1)
  else if 1 ≤ fraction then (lat2, lon2)
  else
    let lat1_r := radians lat1
    let lon1_r := radians lon1
    let lat2_r := radians lat2
    let lon2_r := radians lon2
    let d := 2 * Real.arcsin (Real.sqrt
      (Real.sin ((lat2_r - lat1_r) / 2) ^ 2 +
        Real.cos lat1_r * Real.cos lat2_r * Real.sin ((lon2_r - lon1_r) / 2) ^ 2))
    if d < 1e-12 then (lat1, lon1)
    else
      let a := Real.sin ((1 - fraction) * d) / Real.sin d
      let b := Real.sin (fraction * d) / Real.sin d
      let x := a * Real.cos lat1_r * Real.cos lon1_r + b * Real.cos lat2_r * Real.cos lon2_r
      let y := a * Real.cos lat1_r * Real.sin lon1_r + b * Real.cos lat2_r * Real.sin lon2_r
      let z := a * Real.sin lat1_r + b * Real.sin lat2_r
      (degrees (atan2 z (Real.sqrt (x ^ 2 + y ^ 2))), degrees (atan2 y x))

/-- Modelled from the spec: the external `geopy` library's
`geodesic(p, q).meters` (not part of this repository) — the geodesic
distance in meters between two (lat, lon) points.  Modelled as the
great-circle (haversine) distance on a sphere of radius 6 371 000 m,
per the spec's "geodesic geometry" scope. -/
noncomputable def geodesic_meters (lat1 lon1 lat2 lon2 : ℝ) : ℝ :=
  let phi1 := radians lat1
  let phi2 := radians lat2
  let dphi := radians (lat2 - lat1)
  let dlam := radians (lon2 - lon1)
  6371000 * (2 * Real.arcsin (Real.sqrt
    (Real.sin (dphi / 2) ^ 2 + Real.cos phi1 * Real.cos phi2 * Real.sin (dlam / 2) ^ 2)))

/-! ## Simulation clock (simulator/core/clock.py)

Wall-clock instants (`time.monotonic()`) are passed explicitly as the
`now` argument of each method. -/

/-- `SimulationClock` state.  `start_time` is the simulation epoch;
`accumulated_sim` is `_accumulated_sim` in seconds. -/
structure SimulationClock where
  start_time : ℝ
  speed : ℝ
  running : Bool
  wall_start : Option ℝ
  accumulated_sim : ℝ

namespace SimulationClock

/-- `SimulationClock.__init__(start_time, speed)`. -/
def init (start_time : ℝ) (speed : ℝ) : SimulationClock :=
  { start_time := start_time, speed := speed, running := false,
    wall_start := none, accumulated_sim := 0 }

/-- `get_elapsed`: elapsed simulation time since start, queried at wall
instant `now`. -/
def get_elapsed (c : SimulationClock) (now : ℝ) : ℝ :=
  match c.running, c.wall_start with
  | true, some w => c.accumulated_sim + (now - w) * c.speed
  | _, _ => c.accumulated_sim

/-- `get_sim_time`: current simulation datetime. -/
def get_sim_time (c : SimulationClock) (now : ℝ) : ℝ :=
  c.start_time + c.get_elapsed now

/-- `start`: begin advancing time at wall instant `now`. -/
def start (c : SimulationClock) (now : ℝ) : SimulationClock :=
  if c.running then c
  else { c with running := true, wall_start := some now }

/-- `pause`: pause time advancement, folding the live delta into the
accumulator. -/
def pause (c : SimulationClock) (now : ℝ) : SimulationClock :=
  if c.running then
    { c with accumulated_sim := c.get_elapsed now, running := false, wall_start := none }
  else c

/-- `resume`: resume from paused state. -/
def resume (c : SimulationClock) (now : ℝ) : SimulationClock :=
  if c.running then c
  else { c with running := true, wall_start := some now }

/-- `reset`: elapsed back to 0, clock left paused. -/
def reset (c : SimulationClock) : SimulationClock :=
  { c with running := false, wall_start := none, accumulated_sim := 0 }

/-- `set_speed(multiplier)` at wall instant `now`: accumulates elapsed
time at the old speed first when running. -/
def set_speed (c : SimulationClock) (now : ℝ) (multiplier : ℝ) : SimulationClock :=
  if c.running then
    { c with accumulated_sim := c.get_elapsed now, wall_start := some now,
             speed := multiplier }
  else { c with speed := multiplier }

end SimulationClock

/-- A concrete clock state with speed multiplier −1, running since wall
instant 0: exactly the state produced by `init 0 (-1)` then `start` at
wall time 0.  `set_speed` performs no validation, so negative
multipliers are accepted. -/
def clockNegSpeed : SimulationClock :=
  { start_time := 0, speed := -1, running := true, wall_start := some 0,
    accumulated_sim := 0 }

/-- C2 counterexample: the claim "for any two clock queries at wall
instants t1 ≤ t2 with no pause or speed change between them,
sim_time(t2) ≥ sim_time(t1)" is false as stated: with speed multiplier
−1 (accepted without validation), the sim time strictly decreases
between wall instants 0 and 1.  The state is reachable:
`init 0 (-1)` followed by `start` at wall 0. -/
theorem clock_monotonicity_cex :
    clockNegSpeed.get_sim_time 1 < clockNegSpeed.get_sim_time 0 ∧
      (SimulationClock.init 0 (-1)).start 0 = clockNegSpeed := by
  constructor
  · simp only [SimulationClock.get_sim_time, SimulationClock.get_elapsed, clockNegSpeed]
    norm_num
  · simp [SimulationClock.init, SimulationClock.start, clockNegSpeed]

/-- C2 (amended): provided the current speed multiplier is nonnegative,
`sim_time` is monotone in the wall instant with no pause or speed change
between the two queries; and for every speed change via `set_speed` (at
any old and new speed values), the elapsed sim time reported immediately
after the change equals (hence is not less than) the elapsed sim time
immediately before it. -/
theorem clock_monotone_and_set_speed (c : SimulationClock) (t1 t2 s t : ℝ)
    (hsp : 0 ≤ c.speed) (h12 : t1 ≤ t2) :
    c.get_sim_time t1 ≤ c.get_sim_time t2 ∧
      (c.set_speed t s).get_elapsed t = c.get_elapsed t := by
  obtain ⟨st, sp, run, ws, acc⟩ := c
  simp only at hsp
  constructor
  · cases run with
    | false => simp [SimulationClock.get_sim_time, SimulationClock.get_elapsed]
    | true =>
      cases ws with
      | none => simp [SimulationClock.get_sim_time, SimulationClock.get_elapsed]
      | some w =>
        show st + (acc + (t1 - w) * sp) ≤ st + (acc + (t2 - w) * sp)
        have h : (t1 - w) * sp ≤ (t2 - w) * sp :=
          mul_le_mul_of_nonneg_right (by linarith) hsp
        linarith
  · cases run with
    | false => simp [SimulationClock.set_speed, SimulationClock.get_elapsed]
    | true =>
      cases ws with
      | none =>
        show acc + (t - t) * s = acc
        ring
      | some w =>
        show (acc + (t - w) * sp) + (t - t) * s = acc + (t - w) * sp
        ring

/-- Witness for `clock_monotone_and_set_speed` at a concrete running
clock with speed 2, wall instants 1 ≤ 3, and a speed change to 5. -/
theorem clock_monotone_and_set_speed_witness :
    ({ start_time := 0, speed := 2, running := true, wall_start := some 0,
       accumulated_sim := 0 } : SimulationClock).get_sim_time 1 ≤
      ({ start_time := 0, speed := 2, running := true, wall_start := some 0,
         accumulated_sim := 0 } : SimulationClock).get_sim_time 3 :=
  (clock_monotone_and_set_speed
    { start_time := 0, speed := 2, running := true, wall_start := some 0,
      accumulated_sim := 0 } 1 3 5 4 (by norm_num) (by norm_num)).1

/-! ## Waypoint movement (simulator/movement/waypoint.py) -/

/-- `WaypointMovement` state: the (constructor-sorted) waypoint list and
the scenario start epoch (seconds). -/
structure WaypointMovement where
  waypoints : List Waypoint
  scenario_start : ℝ

/-- Waypoint offsets are in nondecreasing order (the constructor's
`sorted(waypoints, key=lambda w: w.time_offset)` postcondition). -/
def OffsetSorted (wps : List Waypoint) : Prop :=
  wps.Pairwise (fun a b => a.time_offset ≤ b.time_offset)

/-- `WaypointMovement.__init__`: raises `ValueError` on an empty list,
otherwise stores the waypoints sorted by `time_offset` (stable sort,
like Python's `sorted`). -/
noncomputable def mk_waypoint_movement (waypoints : List Waypoint)
    (scenario_start : ℝ) : Except String WaypointMovement :=
  match waypoints with
  | [] => .error "At least one waypoint required"
  | w :: ws =>
    .ok ⟨List.insertionSort (fun a b => a.time_offset ≤ b.time_offset) (w :: ws),
         scenario_start⟩

/-- Heading of the before-first branch: bearing from the first waypoint
to the second, or 0.0 when there is no second waypoint. -/
noncomputable def first_heading (w0 : Waypoint) (rest : List Waypoint) : ℝ :=
  match rest with
  | [] => 0
  | w1 :: _ => initial_bearing w0.lat w0.lon w1.lat w1.lon

/-- Heading of the after-last branch: bearing from the penultimate
waypoint to the last, or 0.0 when there is only one waypoint. -/
noncomputable def last_heading (w0 : Waypoint) (rest : List Waypoint) : ℝ :=
  match rest with
  | [] => 0
  | _ :: _ =>
    initial_bearing ((w0 :: rest).dropLast.getLastD w0).lat
      ((w0 :: rest).dropLast.getLastD w0).lon
      (rest.getLastD w0).lat (rest.getLastD w0).lon

/-- The segment-search loop of `WaypointMovement.get_state`: the first
consecutive pair `[wp_a, wp_b]` with `wp_a.time_offset ≤ elapsed ≤
wp_b.time_offset`, in list order. -/
noncomputable def find_segment : List Waypoint → ℝ → Option (Waypoint × Waypoint)
  | a :: b :: rest, e =>
    if a.time_offset ≤ e ∧ e ≤ b.time_offset then some (a, b)
    else find_segment (b :: rest) e
  | _, _ => none

/-- The body of `WaypointMovement.get_state` for a located segment:
zero-duration guard, great-circle interpolation at `fraction`, linear
altitude and speed, heading to `wp_b`, course from `wp_a` to `wp_b`. -/
noncomputable def seg_state (a b : Waypoint) (elapsed : ℝ) : MovementState :=
  let seg_duration := b.time_offset - a.time_offset
  if seg_duration ≤ 0 then
    { lat := b.lat, lon := b.lon, alt_m := b.alt_m,
      heading_deg := initial_bearing a.lat a.lon b.lat b.lon,
      speed_knots := b.speed_knots,
      course_deg := initial_bearing a.lat a.lon b.lat b.lon,
      metadata_overrides := none }
  else
    let fraction := (elapsed - a.time_offset) / seg_duration
    let p := interpolate_geodesic a.lat a.lon b.lat b.lon fraction
    { lat := p.1, lon := p.2,
      alt_m := a.alt_m + (b.alt_m - a.alt_m) * fraction,
      heading_deg := initial_bearing p.1 p.2 b.lat b.lon,
      speed_knots := a.speed_knots + (b.speed_knots - a.speed_knots) * fraction,
      course_deg := initial_bearing a.lat a.lon b.lat b.lon,
      metadata_overrides := a.metadata_overrides }

/-- `WaypointMovement.get_state` as a function of the waypoint list and
the elapsed time `sim_time - scenario_start`.  The `[]` case is
unreachable past the constructor (which rejects empty lists); it is given
the all-zero state. -/
noncomputable def get_state_elapsed : List Waypoint → ℝ → MovementState
  | [], _ => { lat := 0, lon := 0, alt_m := 0, heading_deg := 0,
               speed_knots := 0, course_deg := 0, metadata_overrides := none }
  | w0 :: rest, elapsed =>
    if elapsed ≤ w0.time_offset then
      { lat := w0.lat, lon := w0.lon, alt_m := w0.alt_m,
        heading_deg := first_heading w0 rest, speed_knots := 0,
        course_deg := first_heading w0 rest,
        metadata_overrides := w0.metadata_overrides }
    else if (rest.getLastD w0).time_offset ≤ elapsed then
      { lat := (rest.getLastD w0).lat, lon := (rest.getLastD w0).lon,
        alt_m := (rest.getLastD w0).alt_m,
        heading_deg := last_heading w0 rest, speed_knots := 0,
        course_deg := last_heading w0 rest,
        metadata_overrides := (rest.getLastD w0).metadata_overrides }
    else
      match find_segment (w0 :: rest) elapsed with
      | some (a, b) => seg_state a b elapsed
      | none =>
        { lat := (rest.getLastD w0).lat, lon := (rest.getLastD w0).lon,
          alt_m := (rest.getLastD w0).alt_m, heading_deg := 0,
          speed_knots := 0, course_deg := 0, metadata_overrides := none }

/-- `WaypointMovement.get_state(sim_time)`. -/
noncomputable def WaypointMovement.get_state (m : WaypointMovement)
    (sim_time : ℝ) : MovementState :=
  get_state_elapsed m.waypoints (sim_time - m.scenario_start)

/-- C4 (amended): for a non-empty sorted waypoint list, if
`elapsed ≤ first.time_offset` the state freezes at the first waypoint
with speed 0 and heading the bearing to the second waypoint when one
exists; otherwise (strictly after the first offset), if
`elapsed ≥ last.time_offset` the state freezes at the last waypoint with
speed 0 and heading the bearing from the penultimate waypoint when the
list has at least two waypoints.  (The before-first rule takes
precedence when the first and last offsets coincide.) -/
theorem waypoint_boundary_freeze (w0 : Waypoint) (rest : List Waypoint) (elapsed : ℝ)
    (hs : OffsetSorted (w0 :: rest)) :
    (elapsed ≤ w0.time_offset →
      (get_state_elapsed (w0 :: rest) elapsed).lat = w0.lat ∧
      (get_state_elapsed (w0 :: rest) elapsed).lon = w0.lon ∧
      (get_state_elapsed (w0 :: rest) elapsed).speed_knots = 0 ∧
      ∀ w1 l, rest = w1 :: l →
        (get_state_elapsed (w0 :: rest) elapsed).heading_deg =
          initial_bearing w0.lat w0.lon w1.lat w1.lon) ∧
    (w0.time_offset < elapsed → (rest.getLastD w0).time_offset ≤ elapsed →
      (get_state_elapsed (w0 :: rest) elapsed).lat = (rest.getLastD w0).lat ∧
      (get_state_elapsed (w0 :: rest) elapsed).lon = (rest.getLastD w0).lon ∧
      (get_state_elapsed (w0 :: rest) elapsed).speed_knots = 0 ∧
      (rest ≠ [] →
        (get_state_elapsed (w0 :: rest) elapsed).heading_deg =
          initial_bearing ((w0 :: rest).dropLast.getLastD w0).lat
            ((w0 :: rest).dropLast.getLastD w0).lon
            (rest.getLastD w0).lat (rest.getLastD w0).lon)) := by
  constructor
  · intro h
    simp only [get_state_elapsed, if_pos h]
    refine ⟨by simp, by simp, by simp, ?_⟩
    intro w1 l hr
    subst hr
    simp [first_heading]
  · intro h1 h2
    simp only [get_state_elapsed, if_neg (not_le.mpr h1), if_pos h2]
    refine ⟨by simp, by simp, by simp, ?_⟩
    intro hne
    match rest, hne with
    | w1 :: l, _ => simp [last_heading]

/-- Witness for `waypoint_boundary_freeze` at a concrete two-waypoint
list queried before the first offset. -/
theorem waypoint_boundary_freeze_witness :
    (get_state_elapsed [⟨4, 110, 0, 5, 0, none⟩, ⟨5, 111, 0, 5, 600, none⟩] (-1)).lat = 4 :=
  ((waypoint_boundary_freeze ⟨4, 110, 0, 5, 0, none⟩ [⟨5, 111, 0, 5, 600, none⟩] (-1)
    (by simp [OffsetSorted])).1 (by norm_num)).1

/-- First counterexample waypoint for C4: offset 0, latitude 1. -/
def wpa : Waypoint := { lat := 1, lon := 0 }

/-- Second counterexample waypoint for C4: offset 0, latitude 2. -/
def wpb : Waypoint := { lat := 2, lon := 0 }

/-- C4 counterexample: for the sorted list `[wpa, wpb]` whose two
waypoints share `time_offset = 0`, at `elapsed = 0` we have
`elapsed ≥ last.time_offset`, yet `get_state` returns the FIRST
waypoint's position (lat 1), not the last waypoint's (lat 2): the claim's
after-last clause is false as stated. -/
theorem waypoint_after_last_cex :
    OffsetSorted [wpa, wpb] ∧
    ([wpb].getLastD wpa).time_offset ≤ (0 : ℝ) ∧
    (get_state_elapsed [wpa, wpb] 0).lat = 1 ∧
    ([wpb].getLastD wpa).lat = 2 := by
  refine ⟨?_, ?_, ?_, ?_⟩
  · simp [OffsetSorted, wpa, wpb]
  · simp [wpa, wpb]
  · simp [get_state_elapsed, wpa, wpb]
  · simp [wpa, wpb]

/-- `find_segment` returns the pair bridging `e` as soon as the strictly
earlier prefix is exhausted: if every waypoint of `l1 ≠ []` has offset
strictly below `e` and `e ≤ a.time_offset`, the selected segment is
`(last of l1, a)`. -/
theorem find_segment_prefix_lt (e : ℝ) :
    ∀ (l1 : List Waypoint) (a : Waypoint) (tail : List Waypoint) (h1 : l1 ≠ [])
      (_ : ∀ w ∈ l1, w.time_offset < e) (_ : e ≤ a.time_offset),
      find_segment (l1 ++ a :: tail) e = some (l1.getLast h1, a)
  | [x], a, tail, _, hlt, ha => by
    have hx : x.time_offset < e := hlt x (by simp)
    simp only [List.cons_append, List.nil_append, find_segment]
    rw [if_pos ⟨le_of_lt hx, ha⟩]
    simp
  | x :: y :: l', a, tail, _, hlt, ha => by
    have hy : y.time_offset < e := hlt y (by simp)
    have ih := find_segment_prefix_lt e (y :: l') a tail (by simp)
      (fun w hw => hlt w (by simp [hw])) ha
    simp only [List.cons_append] at ih ⊢
    simp only [find_segment, List.append_eq]
    rw [if_neg (by rintro ⟨-, h⟩; exact absurd h (not_le.mpr hy))]
    rw [ih]
    simp [List.getLast_cons]

/-- C5 (amended): for a sorted waypoint list with an interior
zero-duration segment `[a, b]` (`a.time_offset = b.time_offset = e`,
strictly between the first and last offsets), where `a` is the first
waypoint at that offset, querying at `elapsed = e` returns `a`'s
position, NOT `b`'s: the segment search selects the positive-duration
segment ending at `a` and evaluates it at fraction 1 (the code's
"instant jump" branch is unreachable). -/
theorem waypoint_zero_duration_amended (l1 l2 : List Waypoint) (a b : Waypoint) (e : ℝ)
    (_ : OffsetSorted (l1 ++ a :: b :: l2))
    (hl1 : l1 ≠ [])
    (hlt : ∀ w ∈ l1, w.time_offset < e)
    (ha : a.time_offset = e) (_ : b.time_offset = e)
    (hlast : e < (l2.getLastD b).time_offset) :
    (get_state_elapsed (l1 ++ a :: b :: l2) e).lat = a.lat ∧
    (get_state_elapsed (l1 ++ a :: b :: l2) e).lon = a.lon ∧
    (get_state_elapsed (l1 ++ a :: b :: l2) e).alt_m = a.alt_m := by
  match l1, hl1 with
  | w0 :: l1', _ =>
    have hpne : (w0 :: l1' : List Waypoint) ≠ [] := by simp
    have hw0 : w0.time_offset < e := hlt w0 (by simp)
    have hrest_last : ((l1' ++ a :: b :: l2).getLastD w0) = l2.getLastD b := by
      rw [List.getLastD_eq_getLast? w0,
        List.getLast?_append_of_ne_nil l1' (show a :: b :: l2 ≠ [] by simp),
        ← List.getLastD_eq_getLast? w0, List.getLastD_cons, List.getLastD_cons]
    have hseg := find_segment_prefix_lt e (w0 :: l1') a (b :: l2) hpne hlt
      (le_of_eq ha.symm)
    have hp : (w0 :: l1').getLast hpne ∈ (w0 :: l1') := List.getLast_mem _
    have hplt : ((w0 :: l1').getLast hpne).time_offset < e := hlt _ hp
    have hdur : 0 < a.time_offset - ((w0 :: l1').getLast hpne).time_offset := by
      rw [ha]; linarith
    simp only [List.cons_append] at hseg ⊢
    simp only [get_state_elapsed, List.append_eq]
    rw [if_neg (not_le.mpr hw0), hrest_last, if_neg (not_le.mpr hlast)]
    rw [hseg]
    simp only [seg_state]
    rw [if_neg (not_le.mpr hdur)]
    have hfrac : (e - ((w0 :: l1').getLast hpne).time_offset) /
        (a.time_offset - ((w0 :: l1').getLast hpne).time_offset) = 1 := by
      rw [ha]
      exact div_self (by linarith)
    rw [hfrac]
    simp only [interpolate_geodesic]
    rw [if_neg (by norm_num), if_pos (le_refl (1 : ℝ))]
    refine ⟨rfl, rfl, by ring⟩

/-- Waypoint 0 of the C5 counterexample: offset 0, latitude 0. -/
def zw0 : Waypoint := { lat := 0, lon := 0, time_offset := 0 }

/-- Waypoint 1 of the C5 counterexample (the zero-duration segment's
`wp_a`): offset 5, latitude 1. -/
def zw1 : Waypoint := { lat := 1, lon := 0, time_offset := 5 }

/-- Waypoint 2 of the C5 counterexample (the zero-duration segment's
`wp_b`): offset 5, latitude 2. -/
def zw2 : Waypoint := { lat := 2, lon := 0, time_offset := 5 }

/-- Waypoint 3 of the C5 counterexample: offset 10, latitude 3. -/
def zw3 : Waypoint := { lat := 3, lon := 0, time_offset := 10 }

/-- C5 counterexample: `[zw1, zw2]` is an interior zero-duration segment
(shared offset 5, strictly between offsets 0 and 10), but `get_state` at
elapsed 5 returns latitude 1 = `zw1.lat` (`wp_a`'s position), not
latitude 2 = `zw2.lat` (`wp_b`'s position) as the claim states: the
segment search selects `[zw0, zw1]` first and evaluates it at
fraction 1, so the "instant jump to wp_b" never happens. -/
theorem waypoint_zero_duration_cex :
    OffsetSorted [zw0, zw1, zw2, zw3] ∧
    zw1.time_offset = zw2.time_offset ∧
    zw0.time_offset < zw1.time_offset ∧ zw2.time_offset < zw3.time_offset ∧
    (get_state_elapsed [zw0, zw1, zw2, zw3] 5).lat = zw1.lat ∧
    (get_state_elapsed [zw0, zw1, zw2, zw3] 5).lat ≠ zw2.lat := by
  have h : (get_state_elapsed [zw0, zw1, zw2, zw3] 5).lat = 1 := by
    norm_num [get_state_elapsed, find_segment, seg_state, interpolate_geodesic,
      List.getLastD, zw0, zw1, zw2, zw3]
  refine ⟨by simp [OffsetSorted, zw0, zw1, zw2, zw3]; norm_num,
    by simp [zw1, zw2], by simp [zw0, zw1],
    by simp [zw2, zw3]; norm_num, ?_, ?_⟩
  · rw [h]; simp [zw1]
  · rw [h]; simp [zw2]

/-- Witness for `waypoint_zero_duration_amended`, instantiated at the
concrete four-waypoint list of the counterexample. -/
theorem waypoint_zero_duration_amended_witness :
    (get_state_elapsed [zw0, zw1, zw2, zw3] 5).lat = zw1.lat := by
  have h := waypoint_zero_duration_amended [zw0] [zw3] zw1 zw2 5
    (by simp [OffsetSorted, zw0, zw1, zw2, zw3]; norm_num)
    (by simp)
    (by intro w hw; simp at hw; subst hw; simp [zw0])
    (by simp [zw1]) (by simp [zw2])
    (by simp [zw2, zw3]; norm_num)
  simp only [List.cons_append, List.nil_append] at h
  exact h.1

/-- In the interior of a waypoint list — strictly after the first offset
and strictly before the last — the segment search always succeeds, and
the selected segment `[a, b]` satisfies
`a.time_offset < elapsed ≤ b.time_offset`, so its duration is strictly
positive. -/
theorem find_segment_interior (e : ℝ) :
    ∀ (rest : List Waypoint) (w0 : Waypoint),
      w0.time_offset < e → e < (rest.getLastD w0).time_offset →
      ∃ a b, find_segment (w0 :: rest) e = some (a, b) ∧
        a.time_offset < e ∧ e ≤ b.time_offset ∧
        0 < b.time_offset - a.time_offset
  | [], w0, h0, hl => absurd hl (by simp; linarith)
  | b :: rest', w0, h0, hl => by
    by_cases hb : e ≤ b.time_offset
    · refine ⟨w0, b, ?_, h0, hb, by linarith⟩
      simp only [find_segment]
      rw [if_pos ⟨le_of_lt h0, hb⟩]
    · have hb' : b.time_offset < e := not_le.mp hb
      have hl' : e < (rest'.getLastD b).time_offset := by
        rwa [List.getLastD_cons] at hl
      obtain ⟨a, c, hfs, h1, h2, h3⟩ := find_segment_interior e rest' b hb' hl'
      refine ⟨a, c, ?_, h1, h2, h3⟩
      simp only [find_segment]
      rw [if_neg (by rintro ⟨-, h⟩; exact absurd h hb)]
      exact hfs

/-- C10: the `WaypointMovement` constructor fails (Python: raises
`ValueError`) exactly when the waypoint list is empty; and for a
non-empty list `get_state` (total by construction in this embedding)
never divides by zero: in the interior branch the selected segment's
duration — the divisor of `fraction` — is strictly positive, so the
`seg_duration ≤ 0` guard indeed shields the division. -/
theorem waypoint_ctor_empty_and_no_div_by_zero :
    (∀ s : ℝ, ∃ msg, mk_waypoint_movement [] s = .error msg) ∧
    (∀ (w : Waypoint) (ws : List Waypoint) (s : ℝ),
      ∃ m, mk_waypoint_movement (w :: ws) s = .ok m) ∧
    (∀ (w0 : Waypoint) (rest : List Waypoint) (e : ℝ),
      w0.time_offset < e → e < (rest.getLastD w0).time_offset →
      ∃ a b, find_segment (w0 :: rest) e = some (a, b) ∧
        0 < b.time_offset - a.time_offset) := by
  refine ⟨fun s => ⟨_, rfl⟩, fun w ws s => ⟨_, rfl⟩, ?_⟩
  intro w0 rest e h0 hl
  obtain ⟨a, b, hfs, -, -, h3⟩ := find_segment_interior e rest w0 h0 hl
  exact ⟨a, b, hfs, h3⟩

/-- Witness for `waypoint_ctor_empty_and_no_div_by_zero`: the segment
selected in the interior of the counterexample list has positive
duration, and the constructor succeeds/fails as claimed on concrete
lists. -/
theorem waypoint_ctor_empty_and_no_div_by_zero_witness :
    (∃ msg, mk_waypoint_movement [] 0 = .error msg) ∧
    (∃ m, mk_waypoint_movement [zw0] 0 = .ok m) ∧
    (∃ a b, find_segment [zw0, zw1, zw2, zw3] 3 = some (a, b) ∧
      0 < b.time_offset - a.time_offset) := by
  refine ⟨waypoint_ctor_empty_and_no_div_by_zero.1 0,
    waypoint_ctor_empty_and_no_div_by_zero.2.1 zw0 [] 0,
    waypoint_ctor_empty_and_no_div_by_zero.2.2 zw0 [zw1, zw2, zw3] 3
      (by norm_num [zw0]) ?_⟩
  norm_num [zw1, zw2, zw3]

/-! ## Entities and the entity store
(simulator/core/entity.py, simulator/core/entity_store.py) -/

/-- `EntityStatus` enum. -/
inductive EntityStatus where
  | ACTIVE
  | IDLE
  | RESPONDING
  | INTERCEPTING
  | RTB
deriving DecidableEq

/-- WGS84 geographic position (`Position`). -/
structure Position where
  latitude : ℝ
  longitude : ℝ
  altitude_m : ℝ := 0

/-- Base entity model (`Entity`); `domain`, `agency`, `sidc` and
`metadata` are opaque to the verified core and carried as strings. -/
structure Entity where
  entity_id : String
  entity_type : String
  domain : String := ""
  agency : String := ""
  callsign : String := ""
  position : Position
  heading_deg : ℝ := 0
  speed_knots : ℝ := 0
  course_deg : ℝ := 0
  status : EntityStatus := .ACTIVE
  sidc : String := ""
  metadata : MetaMap := []

/-- Association-list get (Python `dict.get`): first binding wins. -/
def assoc_get {α : Type} : List (String × α) → String → Option α
  | [], _ => none
  | (k, v) :: rest, key => if k = key then some v else assoc_get rest key

/-- Association-list set (Python `dict[key] = v`): replace the first
binding for `key`, or append a new binding. -/
def assoc_set {α : Type} : List (String × α) → String → α → List (String × α)
  | [], key, v => [(key, v)]
  | (k, w) :: rest, key, v =>
    if k = key then (key, v) :: rest else (k, w) :: assoc_set rest key v

/-- Association-list delete (Python `del dict[key]`), removing the first
binding for `key` if present. -/
def assoc_del {α : Type} : List (String × α) → String → List (String × α)
  | [], _ => []
  | (k, w) :: rest, key => if k = key then rest else (k, w) :: assoc_del rest key

/-- `EntityStore`: in-memory registry keyed by entity id.  The internal
mutex serialises operations; each individual operation is modelled as a
pure function on the map. -/
structure EntityStore where
  entities : List (String × Entity)

/-- `EntityStore.get_entity`. -/
def EntityStore.get_entity (s : EntityStore) (entity_id : String) : Option Entity :=
  assoc_get s.entities entity_id

/-- `EntityStore.upsert_entity`. -/
def EntityStore.upsert_entity (s : EntityStore) (e : Entity) : EntityStore :=
  ⟨assoc_set s.entities e.entity_id e⟩

/-! ## Intercept movement (simulator/movement/intercept.py) -/

/-- Orbit radius in meters for fixed-wing loiter pattern
(`_ORBIT_RADIUS_M`). -/
def ORBIT_RADIUS_M : ℝ := 3000

/-- Degrees per second of heading change for orbit
(`_ORBIT_RATE_DEG_S`). -/
def ORBIT_RATE_DEG_S : ℝ := 3

/-- `InterceptMovement` state.  The entity store reference is passed to
`get_state` explicitly instead of being stored. -/
structure InterceptMovement where
  speed : ℝ
  target_id : String
  intercept_radius : ℝ := 500
  lead_pursuit : Bool := true
  pursuer_id : Option String := none
  min_speed : ℝ := 0
  intercepted : Bool := false
  last_heading : ℝ := 0
  last_lat : Option ℝ := none
  last_lon : Option ℝ := none
  last_alt : ℝ := 0
  last_sim_time : Option ℝ := none
  orbit_center_lat : Option ℝ := none
  orbit_center_lon : Option ℝ := none
  orbit_heading : ℝ := 0

/-- `InterceptMovement.__init__(entity_speed_knots, target_entity_id,
entity_store, pursuer_entity_id=...)` with the remaining parameters at
their defaults, as called by the event engine. -/
def mk_intercept_movement (entity_speed_knots : ℝ) (target_entity_id : String)
    (pursuer_entity_id : Option String) : InterceptMovement :=
  { speed := entity_speed_knots, target_id := target_entity_id,
    pursuer_id := pursuer_entity_id }

/-- `InterceptMovement._orbit_state`: fly a circular orbit pattern
around a center point; returns the updated movement state record and
the emitted `MovementState`. -/
noncomputable def InterceptMovement.orbit_state (m : InterceptMovement)
    (p_lat p_lon p_alt center_lat center_lon sim_time : ℝ) :
    InterceptMovement × MovementState :=
  let orbit_speed := m.min_speed
  let dt_s := match m.last_sim_time with
    | some t0 => sim_time - t0
    | none => 0
  let oh := pyMod (m.orbit_heading + ORBIT_RATE_DEG_S * dt_s) 360
  let orbit_rad := radians oh
  let target_lat := center_lat + ORBIT_RADIUS_M * Real.cos orbit_rad / 111111
  let target_lon := center_lon + ORBIT_RADIUS_M * Real.sin orbit_rad /
    (111111 * Real.cos (radians center_lat))
  let heading := initial_bearing p_lat p_lon target_lat target_lon
  let pq : ℝ × ℝ :=
    if 0 < dt_s then
      let speed_ms := orbit_speed * 0.514444
      let move_m := speed_ms * dt_s
      let heading_rad := radians heading
      (p_lat + move_m * Real.cos heading_rad / 111111,
       p_lon + move_m * Real.sin heading_rad / (111111 * Real.cos (radians p_lat)))
    else (p_lat, p_lon)
  let course := pyMod (oh + 90) 360
  let mNew := { m with
    last_lat := some pq.1, last_lon := some pq.2, last_alt := p_alt,
    last_heading := course, last_sim_time := some sim_time,
    orbit_heading := oh }
  (mNew,
   { lat := pq.1, lon := pq.2, alt_m := p_alt, heading_deg := course,
     speed_knots := orbit_speed, course_deg := course,
     metadata_overrides := none })

/-- The pursuer lookup at the top of `InterceptMovement.get_state`:
`self._store.get_entity(self._pursuer_id) if self._pursuer_id else None`. -/
def InterceptMovement.resolve_pursuer (m : InterceptMovement)
    (store : EntityStore) : Option Entity :=
  match m.pursuer_id with
  | some pid => store.get_entity pid
  | none => none

/-- The body of `InterceptMovement.get_state` once the pursuer position
`(p_lat, p_lon, p_alt)` has been resolved: target-removed handling,
intercept-radius check with orbit or stop, and lead-pursuit advance. -/
noncomputable def InterceptMovement.get_state_at (m : InterceptMovement)
    (store : EntityStore) (sim_time p_lat p_lon p_alt : ℝ) :
    InterceptMovement × MovementState :=
  match store.get_entity m.target_id with
  | none =>
    if 0 < m.min_speed then
      let m1 := match m.orbit_center_lat with
        | none =>
          { m with
            orbit_center_lat := some p_lat, orbit_center_lon := some p_lon,
            orbit_heading := m.last_heading }
        | some _ => m
      m1.orbit_state p_lat p_lon p_alt (m1.orbit_center_lat.getD 0)
        (m1.orbit_center_lon.getD 0) sim_time
    else
      let mNew := { m with last_lat := some p_lat, last_lon := some p_lon }
      (mNew,
       { lat := p_lat, lon := p_lon, alt_m := p_alt,
         heading_deg := m.last_heading, speed_knots := 0,
         course_deg := m.last_heading, metadata_overrides := none })
  | some target =>
    let t_lat := target.position.latitude
    let t_lon := target.position.longitude
    let dist_m := geodesic_meters p_lat p_lon t_lat t_lon
    if dist_m ≤ m.intercept_radius then
      let m1 : InterceptMovement := { m with intercepted := true }
      if 0 < m1.min_speed then
        m1.orbit_state p_lat p_lon p_alt t_lat t_lon sim_time
      else
        let heading := initial_bearing p_lat p_lon t_lat t_lon
        let mNew := { m1 with
          last_lat := some p_lat, last_lon := some p_lon,
          last_heading := heading, last_sim_time := some sim_time }
        (mNew,
         { lat := p_lat, lon := p_lon, alt_m := p_alt, heading_deg := heading,
           speed_knots := 0, course_deg := heading, metadata_overrides := none })
    else
      let aim : ℝ × ℝ :=
        if m.lead_pursuit ∧ 0 < target.speed_knots then
          let closing_speed_knots := max (m.speed - target.speed_knots * 0.5) 1
          let dist_nm := dist_m / 1852
          let time_to_intercept_s := dist_nm / closing_speed_knots * 3600
          let target_speed_ms := target.speed_knots * 0.514444
          let target_course_rad := radians target.course_deg
          let dx := target_speed_ms * time_to_intercept_s * Real.sin target_course_rad
          let dy := target_speed_ms * time_to_intercept_s * Real.cos target_course_rad
          (t_lat + dy / 111111, t_lon + dx / (111111 * Real.cos (radians t_lat)))
        else (t_lat, t_lon)
      let heading := initial_bearing p_lat p_lon aim.1 aim.2
      let dt_s := match m.last_sim_time with
        | some t0 => sim_time - t0
        | none => 0
      let pq : ℝ × ℝ :=
        if 0 < dt_s then
          let speed_ms := m.speed * 0.514444
          let move_m := if dist_m < speed_ms * dt_s then dist_m else speed_ms * dt_s
          let heading_rad := radians heading
          (p_lat + move_m * Real.cos heading_rad / 111111,
           p_lon + move_m * Real.sin heading_rad / (111111 * Real.cos (radians p_lat)))
        else (p_lat, p_lon)
      let mNew := { m with
        last_heading := heading, last_lat := some pq.1, last_lon := some pq.2,
        last_alt := p_alt, last_sim_time := some sim_time }
      (mNew,
       { lat := pq.1, lon := pq.2, alt_m := p_alt, heading_deg := heading,
         speed_knots := m.speed, course_deg := heading,
         metadata_overrides := none })

/-- `InterceptMovement.get_state(sim_time)`: resolve the pursuer from
the store, fall back to the last known position, else emit the all-zero
state; then run the intercept body. -/
noncomputable def InterceptMovement.get_state (m : InterceptMovement)
    (store : EntityStore) (sim_time : ℝ) : InterceptMovement × MovementState :=
  match m.resolve_pursuer store with
  | some pursuer =>
    m.get_state_at store sim_time pursuer.position.latitude
      pursuer.position.longitude pursuer.position.altitude_m
  | none =>
    match m.last_lat with
    | some llat => m.get_state_at store sim_time llat (m.last_lon.getD 0) m.last_alt
    | none =>
      (m, { lat := 0, lon := 0, alt_m := 0, heading_deg := 0,
            speed_knots := 0, course_deg := 0, metadata_overrides := none })

/-- C9: if the pursuer id does not resolve in the store and no previous
call has recorded a last-known position, `get_state` returns the
all-zero `MovementState` (and leaves the strategy state untouched)
rather than failing. -/
theorem intercept_no_pursuer_zero_state (m : InterceptMovement)
    (store : EntityStore) (sim_time : ℝ)
    (hp : m.resolve_pursuer store = none) (hl : m.last_lat = none) :
    m.get_state store sim_time =
      (m, { lat := 0, lon := 0, alt_m := 0, heading_deg := 0,
            speed_knots := 0, course_deg := 0, metadata_overrides := none }) := by
  simp only [InterceptMovement.get_state, hp, hl]

/-- Witness for `intercept_no_pursuer_zero_state`: a freshly constructed
intercept strategy whose pursuer id is absent from an empty store. -/
theorem intercept_no_pursuer_zero_state_witness :
    (mk_intercept_movement 35 "T" (some "P")).get_state ⟨[]⟩ 0 =
      (mk_intercept_movement 35 "T" (some "P"),
       { lat := 0, lon := 0, alt_m := 0, heading_deg := 0,
         speed_knots := 0, course_deg := 0, metadata_overrides := none }) :=
  intercept_no_pursuer_zero_state (mk_intercept_movement 35 "T" (some "P"))
    ⟨[]⟩ 0 rfl rfl

/-- `pyMod` as a multiple of the fractional part. -/
theorem pyMod_eq_fract (x b : ℝ) (hb : b ≠ 0) :
    pyMod x b = b * Int.fract (x / b) := by
  unfold pyMod Int.fract
  field_simp

/-- `pyMod` with positive modulus is nonnegative. -/
theorem pyMod_nonneg (x b : ℝ) (hb : 0 < b) : 0 ≤ pyMod x b := by
  rw [pyMod_eq_fract x b hb.ne']
  exact mul_nonneg hb.le (Int.fract_nonneg _)

/-- `pyMod` with positive modulus is below the modulus. -/
theorem pyMod_lt (x b : ℝ) (hb : 0 < b) : pyMod x b < b := by
  rw [pyMod_eq_fract x b hb.ne']
  calc b * Int.fract (x / b) < b * 1 :=
        mul_lt_mul_of_pos_left (Int.fract_lt_one _) hb
    _ = b := mul_one b

/-- `pyMod` is the identity on `[0, b)`. -/
theorem pyMod_eq_self (x b : ℝ) (hb : 0 < b) (h0 : 0 ≤ x) (h1 : x < b) :
    pyMod x b = x := by
  unfold pyMod
  have hz : ⌊x / b⌋ = 0 := by
    rw [Int.floor_eq_zero_iff]
    exact Set.mem_Ico.mpr ⟨div_nonneg h0 hb.le, (div_lt_one hb).mpr h1⟩
  rw [hz]
  simp

/-- `pyMod · 360` is idempotent (used for the orbit heading, which the
code keeps in `[0, 360)`). -/
theorem pyMod360_idem (x : ℝ) : pyMod (pyMod x 360) 360 = pyMod x 360 :=
  pyMod_eq_self _ _ (by norm_num) (pyMod_nonneg x 360 (by norm_num))
    (pyMod_lt x 360 (by norm_num))

/-- The modelled geodesic distance from a point to itself is zero. -/
theorem geodesic_meters_self (a b : ℝ) : geodesic_meters a b a b = 0 := by
  simp [geodesic_meters, radians]

/-- C6 (amended): for an Intercept strategy whose pursuer and target
both resolve in the store and whose target is stationary (speed 0), two
successive `get_state` calls with the same `sim_time` and an unchanged
store return identical `MovementState`s, PROVIDED the strategy has not
previously been queried at a strictly earlier sim time (its recorded
`last_sim_time` is absent or not below `sim_time`); otherwise the first
of the two calls still advances the pursuer by the time delta from the
earlier query while the second does not. -/
theorem intercept_stationary_same_time (m : InterceptMovement)
    (store : EntityStore) (sim_time : ℝ) (p tgt : Entity)
    (hp : m.resolve_pursuer store = some p)
    (ht : store.get_entity m.target_id = some tgt)
    (hspd : tgt.speed_knots = 0)
    (hlast : ∀ t0, m.last_sim_time = some t0 → sim_time ≤ t0) :
    ((m.get_state store sim_time).1.get_state store sim_time).2 =
      (m.get_state store sim_time).2 := by
  rcases hpid : m.pursuer_id with _ | pid
  · simp [InterceptMovement.resolve_pursuer, hpid] at hp
  · simp only [InterceptMovement.resolve_pursuer, hpid] at hp
    by_cases hd : geodesic_meters p.position.latitude p.position.longitude
        tgt.position.latitude tgt.position.longitude ≤ m.intercept_radius
    · by_cases hm : (0 : ℝ) < m.min_speed
      · -- intercepted, fixed-wing: orbit around the target
        cases hls : m.last_sim_time with
        | none =>
          simp [InterceptMovement.get_state, InterceptMovement.get_state_at,
            InterceptMovement.orbit_state, InterceptMovement.resolve_pursuer,
            hpid, hp, ht, hd, hm, hls, pyMod360_idem]
        | some t0 =>
          have hdt : ¬ (0 < sim_time - t0) :=
            not_lt.mpr (by have := hlast t0 hls; linarith)
          simp [InterceptMovement.get_state, InterceptMovement.get_state_at,
            InterceptMovement.orbit_state, InterceptMovement.resolve_pursuer,
            hpid, hp, ht, hd, hm, hls, hdt, pyMod360_idem]
      · -- intercepted, non-fixed-wing: stop at the intercept point
        simp [InterceptMovement.get_state, InterceptMovement.get_state_at,
          InterceptMovement.resolve_pursuer, hpid, hp, ht, hd, hm]
    · -- far from target: tail chase (no lead, target stationary)
      cases hls : m.last_sim_time with
      | none =>
        simp [InterceptMovement.get_state, InterceptMovement.get_state_at,
          InterceptMovement.resolve_pursuer, hpid, hp, ht, hd, hspd, hls]
      | some t0 =>
        have hdt : ¬ (0 < sim_time - t0) :=
          not_lt.mpr (by have := hlast t0 hls; linarith)
        simp [InterceptMovement.get_state, InterceptMovement.get_state_at,
          InterceptMovement.resolve_pursuer, hpid, hp, ht, hd, hspd, hls, hdt]

/-- Pursuer entity of the C6 counterexample: a fighter at (0, 0). -/
def pursuerCex : Entity :=
  { entity_id := "P", entity_type := "RMAF_FIGHTER",
    position := { latitude := 0, longitude := 0 } }

/-- Target entity of the C6 counterexample: a stationary hostile vessel
at (0, 0). -/
def targetCex : Entity :=
  { entity_id := "T", entity_type := "HOSTILE_VESSEL",
    position := { latitude := 0, longitude := 0 }, speed_knots := 0 }

/-- Store of the C6 counterexample, holding the pursuer and the target. -/
def storeCex : EntityStore := ⟨[("P", pursuerCex), ("T", targetCex)]⟩

/-- Intercept strategy of the C6 counterexample: fixed-wing
(`min_speed = 10`), pursuing "T" from "P". -/
def mCex : InterceptMovement :=
  { speed := 450, target_id := "T", pursuer_id := some "P", min_speed := 10 }

/-- Looking up "P" in the counterexample store yields the pursuer. -/
theorem storeCex_get_P : storeCex.get_entity "P" = some pursuerCex := by
  simp [storeCex, EntityStore.get_entity, assoc_get]

/-- Looking up "T" in the counterexample store yields the target. -/
theorem storeCex_get_T : storeCex.get_entity "T" = some targetCex := by
  simp [storeCex, EntityStore.get_entity, assoc_get,
    (show ("P" : String) ≠ "T" by decide)]

/-- Witness for `intercept_stationary_same_time`: a fresh fixed-wing
intercept strategy with both entities resolvable and a stationary
target, queried twice at sim time 0. -/
theorem intercept_stationary_same_time_witness :
    ((mCex.get_state storeCex 0).1.get_state storeCex 0).2 =
      (mCex.get_state storeCex 0).2 :=
  intercept_stationary_same_time mCex storeCex 0 pursuerCex targetCex
    (by simp [InterceptMovement.resolve_pursuer, mCex, storeCex_get_P])
    (by simp [mCex, storeCex_get_T])
    (by simp [targetCex])
    (by intro t0 h; simp [mCex] at h)

/-- `390 mod 360 = 30` over the reals. -/
theorem pyMod_390 : pyMod 390 360 = (30 : ℝ) := by
  unfold pyMod
  have h : ⌊(390 : ℝ) / 360⌋ = 1 := by
    apply Int.floor_eq_iff.mpr
    constructor <;> norm_num
  rw [h]
  norm_num

/-- The strategy state after the C6 counterexample's first call
(`mCex.get_state storeCex 0`): intercepted, orbit heading 0, last sim
time 0, last position (0, 0). -/
def mCex1Val : InterceptMovement :=
  { speed := 450, target_id := "T", intercept_radius := 500,
    lead_pursuit := true, pursuer_id := some "P", min_speed := 10,
    intercepted := true, last_heading := 90, last_lat := some 0,
    last_lon := some 0, last_alt := 0, last_sim_time := some 0,
    orbit_center_lat := none, orbit_center_lon := none, orbit_heading := 0 }

/-- The orbit aim point's latitude on the second call (orbit heading
300°). -/
noncomputable def targetLatCex : ℝ := 3000 * Real.cos (radians 300) / 111111

/-- The orbit aim point's longitude on the second call. -/
noncomputable def targetLonCex : ℝ := 3000 * Real.sin (radians 300) / 111111

/-- The bearing flown toward the orbit aim point on the second call. -/
noncomputable def headingCex : ℝ := initial_bearing 0 0 targetLatCex targetLonCex

/-- Latitude displacement of the second call (100 s at 10 kt along the
orbit bearing). -/
noncomputable def pqLatCex : ℝ := 514.444 * Real.cos (radians headingCex) / 111111

/-- Longitude displacement of the second call. -/
noncomputable def pqLonCex : ℝ := 514.444 * Real.sin (radians headingCex) / 111111

/-- The strategy state after the C6 counterexample's second call. -/
noncomputable def mCex2Val : InterceptMovement :=
  { speed := 450, target_id := "T", intercept_radius := 500,
    lead_pursuit := true, pursuer_id := some "P", min_speed := 10,
    intercepted := true, last_heading := 30, last_lat := some pqLatCex,
    last_lon := some pqLonCex, last_alt := 0, last_sim_time := some 100,
    orbit_center_lat := none, orbit_center_lon := none, orbit_heading := 300 }

/-- C6 counterexample: with a prior query at sim time 0, two successive
`get_state` calls at sim time 100 with an unchanged store and a
stationary resolvable target return DIFFERENT states: the first of the
pair advances the pursuer by the 100 s delta since the earlier query
(the code's `dt_s` is measured from `_last_sim_time`, which the first
call of the pair overwrites), the second does not move.  This refutes
the claim as stated, which allows arbitrary prior internal state. -/
theorem intercept_same_time_cex :
    storeCex.get_entity ((mCex.get_state storeCex 0).1).target_id = some targetCex ∧
    targetCex.speed_knots = 0 ∧
    (((mCex.get_state storeCex 0).1.get_state storeCex 100).1.get_state storeCex 100).2 ≠
      ((mCex.get_state storeCex 0).1.get_state storeCex 100).2 := by
  have h1 : (mCex.get_state storeCex 0).1 = mCex1Val := by
    norm_num [mCex, mCex1Val, pursuerCex, targetCex,
      InterceptMovement.get_state, InterceptMovement.resolve_pursuer,
      InterceptMovement.get_state_at, InterceptMovement.orbit_state,
      storeCex_get_P, storeCex_get_T, geodesic_meters_self,
      ORBIT_RATE_DEG_S, ORBIT_RADIUS_M, pyMod_eq_self]
  have h2s : (mCex1Val.get_state storeCex 100).2 =
      { lat := pqLatCex, lon := pqLonCex, alt_m := 0, heading_deg := 30,
        speed_knots := 10, course_deg := 30, metadata_overrides := none } := by
    norm_num [mCex1Val, pursuerCex, targetCex, headingCex,
      targetLatCex, targetLonCex, pqLatCex, pqLonCex, radians,
      InterceptMovement.get_state, InterceptMovement.resolve_pursuer,
      InterceptMovement.get_state_at, InterceptMovement.orbit_state,
      storeCex_get_P, storeCex_get_T, geodesic_meters_self,
      ORBIT_RATE_DEG_S, ORBIT_RADIUS_M, pyMod_eq_self, pyMod_390,
      Real.cos_zero]
  have h2m : (mCex1Val.get_state storeCex 100).1 = mCex2Val := by
    norm_num [mCex1Val, mCex2Val, pursuerCex, targetCex, headingCex,
      targetLatCex, targetLonCex, pqLatCex, pqLonCex, radians,
      InterceptMovement.get_state, InterceptMovement.resolve_pursuer,
      InterceptMovement.get_state_at, InterceptMovement.orbit_state,
      storeCex_get_P, storeCex_get_T, geodesic_meters_self,
      ORBIT_RATE_DEG_S, ORBIT_RADIUS_M, pyMod_eq_self, pyMod_390,
      Real.cos_zero]
  have h3 : (mCex2Val.get_state storeCex 100).2 =
      { lat := 0, lon := 0, alt_m := 0, heading_deg := 30, speed_knots := 10,
        course_deg := 30, metadata_overrides := none } := by
    norm_num [mCex2Val, pursuerCex, targetCex,
      InterceptMovement.get_state, InterceptMovement.resolve_pursuer,
      InterceptMovement.get_state_at, InterceptMovement.orbit_state,
      storeCex_get_P, storeCex_get_T, geodesic_meters_self,
      ORBIT_RATE_DEG_S, ORBIT_RADIUS_M, pyMod_eq_self, pyMod_390]
  refine ⟨by rw [h1]; simp [mCex1Val, storeCex_get_T], by simp [targetCex], ?_⟩
  rw [h1, h2m, h3, h2s]
  intro heq
  have hlat : (0 : ℝ) = pqLatCex := congrArg MovementState.lat heq
  have hlon : (0 : ℝ) = pqLonCex := congrArg MovementState.lon heq
  have hc : Real.cos (radians headingCex) = 0 := by
    rcases div_eq_zero_iff.mp (pqLatCex.eq_def ▸ hlat.symm) with h | h
    · rcases mul_eq_zero.mp h with h2 | h2
      · norm_num at h2
      · exact h2
    · norm_num at h
  have hs : Real.sin (radians headingCex) = 0 := by
    rcases div_eq_zero_iff.mp (pqLonCex.eq_def ▸ hlon.symm) with h | h
    · rcases mul_eq_zero.mp h with h2 | h2
      · norm_num at h2
      · exact h2
    · norm_num at h
  have hpyth := Real.sin_sq_add_cos_sq (radians headingCex)
  rw [hs, hc] at hpyth
  norm_num at hpyth

/-! ## Sensor noise (simulator/movement/noise.py) -/

/-- `PositionNoise` state: configuration plus the correlated random-walk
offsets.  The `random.Random` generator is modelled by passing the four
Gaussian draws of one `apply` call explicitly. -/
structure PositionNoise where
  max_amplitude_m : ℝ := 15
  speed_pct : ℝ := 0.02
  heading_sigma : ℝ := 2
  decay : ℝ := 0.92
  step_size : ℝ := 2
  noise_north_m : ℝ := 0
  noise_east_m : ℝ := 0
  speed_offset : ℝ := 0
  heading_offset : ℝ := 0

/-- `PositionNoise.apply(state)`: one step of the correlated random
walk.  `g1 g2 g3 g4` are the values returned by the four
`self._rng.gauss(...)` calls, in program order (north step, east step,
speed step, heading step).  Returns the updated noise state and the new
`MovementState`. -/
noncomputable def PositionNoise.apply (n : PositionNoise) (g1 g2 g3 g4 : ℝ)
    (state : MovementState) : PositionNoise × MovementState :=
  let nn0 := n.noise_north_m + g1
  let nn1 := max (-n.max_amplitude_m) (min n.max_amplitude_m nn0)
  let ne0 := n.noise_east_m + g2
  let ne1 := max (-n.max_amplitude_m) (min n.max_amplitude_m ne0)
  let nn := nn1 * n.decay
  let ne := ne1 * n.decay
  let dlat := nn / 111111
  let dlon := ne / (111111 * Real.cos (radians state.lat))
  let sp0 := n.speed_offset + g3
  let sp1 := max (-(3 * n.speed_pct)) (min (3 * n.speed_pct) sp0)
  let sp := sp1 * 0.95
  let noisy_speed := max 0 (state.speed_knots * (1 + sp))
  let ho0 := n.heading_offset + g4
  let ho1 := max (-(3 * n.heading_sigma)) (min (3 * n.heading_sigma) ho0)
  let ho := ho1 * 0.95
  let noisy_heading := pyMod (state.heading_deg + ho) 360
  let noisy_course := pyMod (state.course_deg + ho * 0.5) 360
  ({ n with
      noise_north_m := nn, noise_east_m := ne, speed_offset := sp,
      heading_offset := ho },
   { lat := state.lat + dlat, lon := state.lon + dlon, alt_m := state.alt_m,
     heading_deg := noisy_heading, speed_knots := noisy_speed,
     course_deg := noisy_course,
     metadata_overrides := state.metadata_overrides })

/-- C8: `PositionNoise.apply` perturbs only lat, lon, heading, speed and
course: for every noise configuration, internal random-walk state,
Gaussian draws and input state, the returned state's `alt_m` and
`metadata_overrides` are exactly those of the input. -/
theorem noise_preserves_alt_and_metadata (n : PositionNoise)
    (g1 g2 g3 g4 : ℝ) (state : MovementState) :
    ((n.apply g1 g2 g3 g4 state).2).alt_m = state.alt_m ∧
      ((n.apply g1 g2 g3 g4 state).2).metadata_overrides =
        state.metadata_overrides := by
  constructor <;> rfl

/-! ## Event engine (simulator/scenario/event_engine.py,
simulator/scenario/loader.py) -/

/-- The `speed_range` column of loader.py's `ENTITY_TYPES` table:
entity type name to (min_speed, max_speed) in knots. -/
def ENTITY_TYPES_speed_range : List (String × (ℝ × ℝ)) :=
  [("SUSPECT_VESSEL", (0, 35)), ("CIVILIAN_FISHING", (2, 8)),
   ("CIVILIAN_CARGO", (8, 16)), ("CIVILIAN_TANKER", (8, 14)),
   ("CIVILIAN_LIGHT", (80, 140)), ("MMEA_PATROL", (8, 22)),
   ("MMEA_FAST_INTERCEPT", (15, 35)), ("MIL_NAVAL", (10, 35)),
   ("MIL_NAVAL_FIC", (15, 35)), ("RMAF_TRANSPORT", (120, 280)),
   ("RMAF_MPA", (120, 280)), ("RMAF_HELICOPTER", (0, 140)),
   ("RMAF_FIGHTER", (200, 550)), ("RMP_PATROL_CAR", (10, 30)),
   ("RMP_OFFICER", (0, 4)), ("CI_OFFICER", (0, 4)),
   ("CI_IMMIGRATION_TEAM", (0, 4)), ("MIL_VEHICLE", (0, 50)),
   ("MIL_APC", (0, 40)), ("MIL_INFANTRY", (0, 4)),
   ("HOSTILE_VESSEL", (0, 35)), ("HOSTILE_PERSONNEL", (0, 6)),
   ("CIVILIAN_TOURIST", (0, 3)), ("CIVILIAN_BOAT", (3, 15)),
   ("CIVILIAN_PASSENGER", (5, 20)), ("RMP_TACTICAL_TEAM", (0, 6)),
   ("MIL_INFANTRY_SQUAD", (0, 6))]

/-- `ENTITY_TYPES.get(entity_type, {}).get("speed_range", (10, 20))[1]`:
the type's maximum speed, defaulting to 20 kt for unknown types. -/
def max_speed_of (entity_type : String) : ℝ :=
  ((assoc_get ENTITY_TYPES_speed_range entity_type).getD (10, 20)).2

/-- `ScenarioEvent` (loader.py): a timed event in the scenario timeline.
`time_offset` is seconds from scenario start; `destination` is the
(lat, lon) pair. -/
structure ScenarioEvent where
  time_offset : ℝ
  event_type : String := ""
  description : String := ""
  severity : String := "INFO"
  target : Option String := none
  targets : Option (List String) := none
  action : Option String := none
  intercept_target : Option String := none
  destination : Option (ℝ × ℝ) := none
  area : Option String := none
  alert_agencies : List String := []

/-- A value of the `movements` map (Python `dict[str, Any]` holding
strategy objects).  The event engine constructs Intercept and Waypoint
strategies; `generic` stands for any other pre-existing strategy held in
the map (patrol, orbit, ...), which the engine never constructs or
inspects. -/
inductive Movement where
  | intercept (m : InterceptMovement)
  | waypoint (waypoints : List Waypoint) (scenario_start : ℝ)
  | generic (tag : ℕ)

/-- The mutable world the event engine acts on: the shared entity store
and the shared movements map. -/
structure World where
  store : EntityStore
  movements : List (String × Movement)

/-- `EventEngine._apply_action`: apply an event action to a resolved
entity, returning the updated world (store upsert + movements map
rewiring). -/
noncomputable def apply_action (event : ScenarioEvent) (entity : Entity)
    (target_id : String) (sim_time : ℝ) (w : World) : World :=
  let action := event.action.getD ""
  if action = "intercept" then
    match event.intercept_target with
    | none => w
    | some itgt =>
      let max_speed := max_speed_of entity.entity_type
      let new_movement := mk_intercept_movement max_speed itgt (some target_id)
      let e1 := { entity with
        status := EntityStatus.INTERCEPTING, speed_knots := max_speed }
      { store := w.store.upsert_entity e1,
        movements := assoc_set w.movements target_id
          (Movement.intercept new_movement) }
  else if action = "deploy" ∨ action = "respond" then
    match event.destination with
    | some dest =>
      let max_speed := max_speed_of entity.entity_type
      let deploy_speed := if max_speed ≤ 6 then (25 : ℝ) else max_speed * 0.9
      let dist_nm := geodesic_meters entity.position.latitude
        entity.position.longitude dest.1 dest.2 / 1852
      let travel_s :=
        if 0 < deploy_speed ∧ 0 < dist_nm then dist_nm / deploy_speed * 3600
        else 1800
      let origin_wp : Waypoint :=
        { lat := entity.position.latitude, lon := entity.position.longitude,
          speed_knots := deploy_speed, time_offset := 0 }
      let dest_wp : Waypoint :=
        { lat := dest.1, lon := dest.2, speed_knots := 0, time_offset := travel_s }
      let e1 := { entity with
        status := EntityStatus.RESPONDING, speed_knots := deploy_speed }
      { store := w.store.upsert_entity e1,
        movements := assoc_set w.movements target_id
          (Movement.waypoint [origin_wp, dest_wp] sim_time) }
    | none =>
      { store := w.store.upsert_entity
          { entity with status := EntityStatus.RESPONDING },
        movements := w.movements }
  else if action = "search_area" ∨ action = "patrol" then
    { store := w.store.upsert_entity { entity with status := EntityStatus.ACTIVE },
      movements := w.movements }
  else if action = "lockdown" ∨ action = "secure" then
    { store := w.store.upsert_entity
        { entity with status := EntityStatus.ACTIVE, speed_knots := 0 },
      movements := assoc_del w.movements target_id }
  else if action = "activate" then
    { store := w.store.upsert_entity { entity with status := EntityStatus.ACTIVE },
      movements := w.movements }
  else if action = "escort_to_port" then
    let max_speed := max_speed_of entity.entity_type
    let escort_speed := max_speed * 0.5
    let dist_nm := geodesic_meters entity.position.latitude
      entity.position.longitude 5.84 118.105 / 1852
    let travel_s := if 0 < escort_speed then dist_nm / escort_speed * 3600 else 3600
    let origin_wp : Waypoint :=
      { lat := entity.position.latitude, lon := entity.position.longitude,
        speed_knots := escort_speed, time_offset := 0 }
    let dest_wp : Waypoint :=
      { lat := 5.84, lon := 118.105, speed_knots := 0, time_offset := travel_s }
    let e1 := { entity with
      status := EntityStatus.ACTIVE, speed_knots := escort_speed }
    { store := w.store.upsert_entity e1,
      movements := assoc_set w.movements target_id
        (Movement.waypoint [origin_wp, dest_wp] sim_time) }
  else
    { store := w.store.upsert_entity { entity with status := EntityStatus.ACTIVE },
      movements := w.movements }

/-- The per-target loop of `EventEngine._fire_event`: an id absent from
the store is skipped (a warning is logged); a resolved entity receives
the action. -/
noncomputable def fire_targets (event : ScenarioEvent) (sim_time : ℝ) :
    List String → World → World
  | [], w => w
  | tid :: rest, w =>
    match w.store.get_entity tid with
    | none => fire_targets event sim_time rest w
    | some entity =>
      fire_targets event sim_time rest (apply_action event entity tid sim_time w)

/-- `EventEngine._fire_event`: no-op for a falsy action; otherwise
collect `target` and `targets` and apply the action to each. -/
noncomputable def fire_event (event : ScenarioEvent) (sim_time : ℝ)
    (w : World) : World :=
  match event.action with
  | none => w
  | some a =>
    if a = "" then w
    else
      let target_ids := (match event.target with
        | some t => [t]
        | none => []) ++ event.targets.getD []
      fire_targets event sim_time target_ids w

/-- `EventEngine` state: the (constructor-sorted) event list, the
scenario start epoch, the fired list (insertion order) and the fired
index set. -/
structure EventEngine where
  events : List ScenarioEvent
  scenario_start : ℝ
  fired : List ScenarioEvent
  fired_set : Finset ℕ

/-- `EventEngine.__init__`: sorts events by `time_offset` (stable, like
Python's `sorted`) and starts with empty fired structures. -/
noncomputable def mk_event_engine (events : List ScenarioEvent)
    (scenario_start : ℝ) : EventEngine :=
  { events := List.insertionSort (fun a b => a.time_offset ≤ b.time_offset) events,
    scenario_start := scenario_start, fired := [], fired_set := ∅ }

/-- Result of the `EventEngine.tick` loop body. -/
structure TickResult where
  fired_set : Finset ℕ
  fired : List ScenarioEvent
  world : World
  newly : List (ℕ × ScenarioEvent)

/-- The `for i, event in enumerate(self._events)` loop of
`EventEngine.tick`: skip already-fired indices, fire due events, record
them in the fired set, the fired list and the newly-fired list. -/
noncomputable def tick_go (elapsed sim_time : ℝ) :
    List (ℕ × ScenarioEvent) → Finset ℕ → List ScenarioEvent → World → TickResult
  | [], fs, fl, w => ⟨fs, fl, w, []⟩
  | (i, e) :: rest, fs, fl, w =>
    if i ∈ fs then tick_go elapsed sim_time rest fs fl w
    else if e.time_offset ≤ elapsed then
      let w1 := fire_event e sim_time w
      let r := tick_go elapsed sim_time rest (insert i fs) (fl ++ [e]) w1
      ⟨r.fired_set, r.fired, r.world, (i, e) :: r.newly⟩
    else tick_go elapsed sim_time rest fs fl w

/-- `EventEngine.tick(sim_time)` keeping the fired indices alongside the
events. -/
noncomputable def EventEngine.tick_indexed (eng : EventEngine) (w : World)
    (sim_time : ℝ) : EventEngine × World × List (ℕ × ScenarioEvent) :=
  let elapsed := sim_time - eng.scenario_start
  let r := tick_go elapsed sim_time eng.events.enum eng.fired_set eng.fired w
  ({ eng with fired_set := r.fired_set, fired := r.fired }, r.world, r.newly)

/-- `EventEngine.tick(sim_time)`: returns the list of newly fired
events. -/
noncomputable def EventEngine.tick (eng : EventEngine) (w : World)
    (sim_time : ℝ) : EventEngine × World × List ScenarioEvent :=
  let r := eng.tick_indexed w sim_time
  (r.1, r.2.1, r.2.2.map Prod.snd)

/-- `EventEngine.reset`: clear the fired list and the fired set. -/
def EventEngine.reset (eng : EventEngine) : EventEngine :=
  { eng with fired := [], fired_set := ∅ }

/-- `EventEngine.is_complete`: all events have fired. -/
def EventEngine.is_complete (eng : EventEngine) : Bool :=
  eng.fired_set.card == eng.events.length

/-- `EventEngine.get_fired_events`. -/
def EventEngine.get_fired_events (eng : EventEngine) : List ScenarioEvent :=
  eng.fired

/-- A sequence of `tick` calls at the given sim times, collecting every
newly fired (index, event) pair. -/
noncomputable def run_ticks :
    EventEngine → World → List ℝ → EventEngine × World × List (ℕ × ScenarioEvent)
  | eng, w, [] => (eng, w, [])
  | eng, w, t :: ts =>
    let r := eng.tick_indexed w t
    let rest := run_ticks r.1 r.2.1 ts
    (rest.1, rest.2.1, r.2.2 ++ rest.2.2)

/-- Bookkeeping specification of the `tick` loop: the resulting fired
set is the old one united with the newly fired indices; no newly fired
index was already in the fired set; and (for an index-distinct input,
as produced by `enumerate`) the newly fired indices are pairwise
distinct. -/
theorem tick_go_spec (elapsed sim_time : ℝ) :
    ∀ (l : List (ℕ × ScenarioEvent)) (fs : Finset ℕ) (fl : List ScenarioEvent)
      (w : World),
      (tick_go elapsed sim_time l fs fl w).fired_set =
        fs ∪ ((tick_go elapsed sim_time l fs fl w).newly.map Prod.fst).toFinset ∧
      (∀ i ∈ (tick_go elapsed sim_time l fs fl w).newly.map Prod.fst, i ∉ fs) ∧
      ((l.map Prod.fst).Nodup →
        ((tick_go elapsed sim_time l fs fl w).newly.map Prod.fst).Nodup)
  | [], fs, fl, w => by simp [tick_go]
  | (i, e) :: rest, fs, fl, w => by
    by_cases hi : i ∈ fs
    · simp only [tick_go, if_pos hi]
      obtain ⟨h1, h2, h3⟩ := tick_go_spec elapsed sim_time rest fs fl w
      refine ⟨h1, h2, fun hn => h3 ?_⟩
      simp only [List.map_cons] at hn
      exact hn.of_cons
    · by_cases he : e.time_offset ≤ elapsed
      · simp only [tick_go, if_neg hi, if_pos he]
        obtain ⟨h1, h2, h3⟩ := tick_go_spec elapsed sim_time rest (insert i fs)
          (fl ++ [e]) (fire_event e sim_time w)
        refine ⟨?_, ?_, ?_⟩
        · rw [h1]
          simp only [List.map_cons, List.toFinset_cons, Finset.insert_union,
            Finset.union_insert]
        · intro j hj
          simp only [List.map_cons, List.mem_cons] at hj
          rcases hj with rfl | hj
          · exact hi
          · exact fun hf => h2 j hj (Finset.mem_insert_of_mem hf)
        · intro hn
          simp only [List.map_cons] at hn ⊢
          refine List.nodup_cons.mpr ⟨?_, h3 hn.of_cons⟩
          intro hmem
          exact h2 i hmem (Finset.mem_insert_self i fs)
      · simp only [tick_go, if_neg hi, if_neg he]
        obtain ⟨h1, h2, h3⟩ := tick_go_spec elapsed sim_time rest fs fl w
        refine ⟨h1, h2, fun hn => h3 ?_⟩
        simp only [List.map_cons] at hn
        exact hn.of_cons

/-- Across any sequence of `tick` calls, the newly fired indices are
pairwise distinct and disjoint from the initial fired set: an event
fires at most once per reset epoch. -/
theorem run_ticks_spec :
    ∀ (ts : List ℝ) (eng : EventEngine) (w : World),
      ((run_ticks eng w ts).2.2.map Prod.fst).Nodup ∧
      ∀ i ∈ (run_ticks eng w ts).2.2.map Prod.fst, i ∉ eng.fired_set
  | [], eng, w => by simp [run_ticks]
  | t :: ts, eng, w => by
    obtain ⟨g1, g2, g3⟩ := tick_go_spec (t - eng.scenario_start) t
      eng.events.enum eng.fired_set eng.fired w
    have henum : (eng.events.enum.map Prod.fst).Nodup := by
      rw [List.enum_map_fst]
      exact List.nodup_range _
    have hnn := g3 henum
    obtain ⟨ih1, ih2⟩ := run_ticks_spec ts (eng.tick_indexed w t).1
      (eng.tick_indexed w t).2.1
    have hfs : (eng.tick_indexed w t).1.fired_set =
        eng.fired_set ∪
          ((eng.tick_indexed w t).2.2.map Prod.fst).toFinset := by
      simpa [EventEngine.tick_indexed] using g1
    have hn1 : ((eng.tick_indexed w t).2.2.map Prod.fst).Nodup := by
      simpa [EventEngine.tick_indexed] using hnn
    have h21 : ∀ i ∈ (eng.tick_indexed w t).2.2.map Prod.fst,
        i ∉ eng.fired_set := by
      simpa [EventEngine.tick_indexed] using g2
    constructor
    · simp only [run_ticks, List.map_append]
      refine List.Nodup.append hn1 ih1 ?_
      intro j hj1 hj2
      apply ih2 j hj2
      rw [hfs]
      exact Finset.mem_union_right _ (List.mem_toFinset.mpr hj1)
    · intro j hj
      simp only [run_ticks, List.map_append, List.mem_append] at hj
      rcases hj with hj | hj
      · exact h21 j hj
      · intro hf
        exact ih2 j hj (by rw [hfs]; exact Finset.mem_union_left _ hf)

/-- C1: across every sequence of `tick` calls, each event index fires at
most once per reset epoch (the newly fired indices are pairwise distinct
and never come from the pre-existing fired set, and `_fire_event` is
invoked exactly for the newly fired indices by construction of
`tick_go`); and after `reset` the fired set and fired list are empty, so
for a non-empty event list `is_complete` is false and every event may
fire again. -/
theorem event_engine_fires_once_and_reset (eng : EventEngine) (w : World)
    (ts : List ℝ) (hne : eng.events ≠ []) :
    ((run_ticks eng w ts).2.2.map Prod.fst).Nodup ∧
    (∀ i ∈ (run_ticks eng w ts).2.2.map Prod.fst, i ∉ eng.fired_set) ∧
    eng.reset.fired_set = ∅ ∧ eng.reset.fired = [] ∧
    eng.reset.is_complete = false := by
  obtain ⟨h1, h2⟩ := run_ticks_spec ts eng w
  refine ⟨h1, h2, rfl, rfl, ?_⟩
  simp only [EventEngine.is_complete, EventEngine.reset, Finset.card_empty]
  have hlen : eng.events.length ≠ 0 := fun h => hne (List.length_eq_zero.mp h)
  exact beq_eq_false_iff_ne.mpr (fun h => hlen h.symm)

/-- A one-event engine used as concrete input by the event-engine
witnesses. -/
def engW : EventEngine := ⟨[{ time_offset := 0 }], 0, [], ∅⟩

/-- An empty world (no entities, no movements) for the witnesses. -/
def worldEmpty : World := ⟨⟨[]⟩, []⟩

/-- Witness for `event_engine_fires_once_and_reset` at a concrete
one-event engine ticked once. -/
theorem event_engine_fires_once_and_reset_witness :
    ((run_ticks engW worldEmpty [1]).2.2.map Prod.fst).Nodup ∧
      engW.reset.is_complete = false :=
  ⟨(event_engine_fires_once_and_reset engW worldEmpty [1] (by simp [engW])).1,
   (event_engine_fires_once_and_reset engW worldEmpty [1]
     (by simp [engW])).2.2.2.2⟩

/-- Characterisation of a lookup after an association-list set. -/
theorem assoc_get_set {α : Type} (k k' : String) (v : α) :
    ∀ (l : List (String × α)),
      assoc_get (assoc_set l k v) k' = if k' = k then some v else assoc_get l k'
  | [] => by
    by_cases h : k' = k
    · subst h
      simp [assoc_set, assoc_get]
    · have h2 : ¬ (k = k') := fun hh => h hh.symm
      simp only [assoc_set, assoc_get, if_neg h, if_neg h2]
  | (k0, v0) :: rest => by
    by_cases h0 : k0 = k
    · subst h0
      simp only [assoc_set, if_pos rfl, assoc_get]
      by_cases h : k' = k0
      · subst h
        simp
      · have h2 : ¬ (k0 = k') := fun hh => h hh.symm
        rw [if_neg h, if_neg h2, if_neg h2]
    · simp only [assoc_set, if_neg h0, assoc_get]
      by_cases h1 : k0 = k'
      · have hk : ¬ (k' = k) := fun hh => h0 (h1.trans hh)
        rw [if_pos h1, if_neg hk, if_pos h1]
      · rw [if_neg h1, if_neg h1, assoc_get_set k k' v rest]

/-- A lookup at a different key is unaffected by an association-list
delete. -/
theorem assoc_get_del {α : Type} (k k' : String) (h : k' ≠ k) :
    ∀ (l : List (String × α)), assoc_get (assoc_del l k) k' = assoc_get l k'
  | [] => by simp [assoc_del]
  | (k0, v0) :: rest => by
    by_cases h0 : k0 = k
    · subst h0
      have h2 : ¬ (k0 = k') := fun hh => h hh.symm
      simp only [assoc_del, eq_self_iff_true, if_true, assoc_get, if_neg h2]
    · simp only [assoc_del, if_neg h0, assoc_get]
      by_cases h1 : k0 = k'
      · rw [if_pos h1, if_pos h1]
      · rw [if_neg h1, if_neg h1, assoc_get_del k k' h rest]

/-- Store well-formedness: every stored entity's `entity_id` equals its
key (the Python store keys entities by `entity.entity_id`). -/
def EntityStore.wf (s : EntityStore) : Prop :=
  ∀ k e, s.get_entity k = some e → e.entity_id = k

/-- Upserting preserves store well-formedness. -/
theorem wf_upsert (s : EntityStore) (e : Entity) (hwf : s.wf) :
    (s.upsert_entity e).wf := by
  intro k x hx
  simp only [EntityStore.upsert_entity, EntityStore.get_entity] at hx
  rw [assoc_get_set] at hx
  by_cases h : k = e.entity_id
  · rw [if_pos h] at hx
    injection hx with hh
    rw [← hh]
    exact h.symm
  · rw [if_neg h] at hx
    exact hwf k x hx

/-- Upserting one entity does not change the lookup of a different
key. -/
theorem get_upsert_ne (s : EntityStore) (e : Entity) (k : String)
    (h : k ≠ e.entity_id) : (s.upsert_entity e).get_entity k = s.get_entity k := by
  simp only [EntityStore.upsert_entity, EntityStore.get_entity]
  rw [assoc_get_set]
  exact if_neg h

/-- `_apply_action` on a resolved entity leaves a missing id untouched:
the id stays absent from the store, its movements entry is unchanged,
and well-formedness is preserved.  Every branch upserts only the
resolved entity and rewires movements only at the resolved id. -/
theorem apply_action_preserves_missing (event : ScenarioEvent) (entity : Entity)
    (eid tid : String) (sim_time : ℝ) (w : World)
    (hmiss : w.store.get_entity tid = none) (hwf : w.store.wf)
    (hent : w.store.get_entity eid = some entity) :
    (apply_action event entity eid sim_time w).store.get_entity tid = none ∧
    assoc_get (apply_action event entity eid sim_time w).movements tid =
      assoc_get w.movements tid ∧
    (apply_action event entity eid sim_time w).store.wf := by
  have hid : entity.entity_id = eid := hwf eid entity hent
  have hne : eid ≠ tid := by
    rintro rfl
    rw [hmiss] at hent
    simp at hent
  have hW : ∀ (x : Entity), x.entity_id = eid →
      (w.store.upsert_entity x).get_entity tid = none ∧
        (w.store.upsert_entity x).wf := by
    intro x hx
    refine ⟨?_, wf_upsert _ _ hwf⟩
    rw [get_upsert_ne _ _ _ (by rw [hx]; exact fun hh => hne hh.symm)]
    exact hmiss
  have hset : ∀ mv : Movement,
      assoc_get (assoc_set w.movements eid mv) tid = assoc_get w.movements tid := by
    intro mv
    rw [assoc_get_set]
    exact if_neg (fun hh => hne hh.symm)
  have hdel : assoc_get (assoc_del w.movements eid) tid =
      assoc_get w.movements tid :=
    assoc_get_del eid tid (fun hh => hne hh.symm) w.movements
  simp only [apply_action]
  repeat' split
  all_goals
    first
      | exact ⟨hmiss, rfl, hwf⟩
      | exact ⟨(hW _ (by simp [hid])).1, hset _, (hW _ (by simp [hid])).2⟩
      | exact ⟨(hW _ (by simp [hid])).1, hdel, (hW _ (by simp [hid])).2⟩
      | exact ⟨(hW _ (by simp [hid])).1, rfl, (hW _ (by simp [hid])).2⟩

/-- The per-target loop of `_fire_event` preserves a missing id. -/
theorem fire_targets_preserves_missing (event : ScenarioEvent) (sim_time : ℝ)
    (tid : String) :
    ∀ (ids : List String) (w : World),
      w.store.get_entity tid = none → w.store.wf →
      (fire_targets event sim_time ids w).store.get_entity tid = none ∧
      assoc_get (fire_targets event sim_time ids w).movements tid =
        assoc_get w.movements tid ∧
      (fire_targets event sim_time ids w).store.wf
  | [], w, hmiss, hwf => by
    simp only [fire_targets]
    exact ⟨hmiss, by simp, hwf⟩
  | eid :: rest, w, hmiss, hwf => by
    simp only [fire_targets]
    cases hent : w.store.get_entity eid with
    | none => exact fire_targets_preserves_missing event sim_time tid rest w hmiss hwf
    | some entity =>
      obtain ⟨a1, a2, a3⟩ := apply_action_preserves_missing event entity eid tid
        sim_time w hmiss hwf hent
      obtain ⟨b1, b2, b3⟩ := fire_targets_preserves_missing event sim_time tid rest
        (apply_action event entity eid sim_time w) a1 a3
      exact ⟨b1, b2.trans a2, b3⟩

/-- `_fire_event` preserves a missing id. -/
theorem fire_event_preserves_missing (event : ScenarioEvent) (sim_time : ℝ)
    (tid : String) (w : World)
    (hmiss : w.store.get_entity tid = none) (hwf : w.store.wf) :
    (fire_event event sim_time w).store.get_entity tid = none ∧
    assoc_get (fire_event event sim_time w).movements tid =
      assoc_get w.movements tid ∧
    (fire_event event sim_time w).store.wf := by
  rcases ha : event.action with _ | a
  · simp only [fire_event, ha]
    exact ⟨hmiss, by simp, hwf⟩
  · simp only [fire_event, ha]
    by_cases he : a = ""
    · rw [if_pos he]
      exact ⟨hmiss, by simp, hwf⟩
    · rw [if_neg he]
      exact fire_targets_preserves_missing event sim_time tid _ w hmiss hwf

/-- The `tick` loop preserves a missing id across all fired events. -/
theorem tick_go_world_missing (elapsed sim_time : ℝ) (tid : String) :
    ∀ (l : List (ℕ × ScenarioEvent)) (fs : Finset ℕ) (fl : List ScenarioEvent)
      (w : World),
      w.store.get_entity tid = none → w.store.wf →
      (tick_go elapsed sim_time l fs fl w).world.store.get_entity tid = none ∧
      assoc_get (tick_go elapsed sim_time l fs fl w).world.movements tid =
        assoc_get w.movements tid ∧
      (tick_go elapsed sim_time l fs fl w).world.store.wf
  | [], fs, fl, w, hmiss, hwf => by
    simp only [tick_go]
    exact ⟨hmiss, by simp, hwf⟩
  | (i, e) :: rest, fs, fl, w, hmiss, hwf => by
    by_cases hi : i ∈ fs
    · simp only [tick_go, if_pos hi]
      exact tick_go_world_missing elapsed sim_time tid rest fs fl w hmiss hwf
    · by_cases he : e.time_offset ≤ elapsed
      · simp only [tick_go, if_neg hi, if_pos he]
        obtain ⟨f1, f2, f3⟩ := fire_event_preserves_missing e sim_time tid w hmiss hwf
        obtain ⟨g1, g2, g3⟩ := tick_go_world_missing elapsed sim_time tid rest
          (insert i fs) (fl ++ [e]) (fire_event e sim_time w) f1 f3
        exact ⟨g1, g2.trans f2, g3⟩
      · simp only [tick_go, if_neg hi, if_neg he]
        exact tick_go_world_missing elapsed sim_time tid rest fs fl w hmiss hwf

/-- Every not-yet-fired event whose time has arrived is in the newly
fired list of the `tick` loop (regardless of lookup failures during its
action). -/
theorem tick_go_fires (elapsed sim_time : ℝ) :
    ∀ (l : List (ℕ × ScenarioEvent)) (fs : Finset ℕ) (fl : List ScenarioEvent)
      (w : World) (i : ℕ) (e : ScenarioEvent),
      (i, e) ∈ l → (l.map Prod.fst).Nodup → i ∉ fs → e.time_offset ≤ elapsed →
      (i, e) ∈ (tick_go elapsed sim_time l fs fl w).newly
  | [], _, _, _, _, _, hmem, _, _, _ => absurd hmem (by simp)
  | (j, f) :: rest, fs, fl, w, i, e, hmem, hnd, hfs, he => by
    simp only [List.map_cons] at hnd
    rcases List.mem_cons.mp hmem with heq | hmem'
    · injection heq with hij hef
      subst hij
      subst hef
      simp only [tick_go, if_neg hfs, if_pos he]
      exact List.mem_cons_self _ _
    · by_cases hj : j ∈ fs
      · simp only [tick_go, if_pos hj]
        exact tick_go_fires elapsed sim_time rest fs fl w i e hmem' hnd.of_cons hfs he
      · by_cases hf : f.time_offset ≤ elapsed
        · simp only [tick_go, if_neg hj, if_pos hf]
          have hne : i ≠ j := by
            intro hh
            subst hh
            exact (List.nodup_cons.mp hnd).1
              (List.mem_map_of_mem Prod.fst hmem')
          refine List.mem_cons_of_mem _
            (tick_go_fires elapsed sim_time rest (insert j fs) (fl ++ [f])
              (fire_event f sim_time w) i e hmem' hnd.of_cons ?_ he)
          intro hins
          rcases Finset.mem_insert.mp hins with hh | hin
          · exact hne hh
          · exact hfs hin
        · simp only [tick_go, if_neg hj, if_neg hf]
          exact tick_go_fires elapsed sim_time rest fs fl w i e hmem' hnd.of_cons hfs he

/-- C7: a fired event referencing a target id absent from the store
skips that target — its movements entry is neither added, removed nor
replaced, and the id stays absent from the store — yet every due event
(including such an event) is still added to the fired set and returned
as fired. -/
theorem unknown_target_skipped (eng : EventEngine) (w : World) (sim_time : ℝ)
    (tid : String) (hmiss : w.store.get_entity tid = none)
    (hwf : w.store.wf) :
    ((eng.tick_indexed w sim_time).2.1.store.get_entity tid = none) ∧
    (assoc_get (eng.tick_indexed w sim_time).2.1.movements tid =
      assoc_get w.movements tid) ∧
    (∀ i e, (i, e) ∈ eng.events.enum → i ∉ eng.fired_set →
      e.time_offset ≤ sim_time - eng.scenario_start →
      i ∈ (eng.tick_indexed w sim_time).1.fired_set ∧
      e ∈ (eng.tick w sim_time).2.2) := by
  obtain ⟨w1, w2, w3⟩ := tick_go_world_missing (sim_time - eng.scenario_start)
    sim_time tid eng.events.enum eng.fired_set eng.fired w hmiss hwf
  refine ⟨by simpa [EventEngine.tick_indexed] using w1,
    by simpa [EventEngine.tick_indexed] using w2, ?_⟩
  intro i e hmem hnfs he
  have hnd : (eng.events.enum.map Prod.fst).Nodup := by
    rw [List.enum_map_fst]
    exact List.nodup_range _
  have hf := tick_go_fires (sim_time - eng.scenario_start) sim_time
    eng.events.enum eng.fired_set eng.fired w i e hmem hnd hnfs he
  constructor
  · obtain ⟨g1, -, -⟩ := tick_go_spec (sim_time - eng.scenario_start) sim_time
      eng.events.enum eng.fired_set eng.fired w
    simp only [EventEngine.tick_indexed]
    rw [g1]
    exact Finset.mem_union_right _
      (List.mem_toFinset.mpr (List.mem_map_of_mem Prod.fst hf))
  · simp only [EventEngine.tick, EventEngine.tick_indexed]
    exact List.mem_map_of_mem Prod.snd hf

/-- A one-event engine whose event references the absent id "X". -/
def engMissing : EventEngine :=
  ⟨[{ time_offset := 0, action := some "intercept", target := some "X",
      intercept_target := some "Y" }], 0, [], ∅⟩

/-- Witness for `unknown_target_skipped`: an event targeting "X" fired
against an empty store. -/
theorem unknown_target_skipped_witness :
    ((engMissing.tick_indexed worldEmpty 5).2.1.store.get_entity "X" = none) ∧
      assoc_get (engMissing.tick_indexed worldEmpty 5).2.1.movements "X" =
        assoc_get worldEmpty.movements "X" :=
  ⟨(unknown_target_skipped engMissing worldEmpty 5 "X" rfl
      (by intro k e h; simp [EntityStore.get_entity, assoc_get, worldEmpty] at h)).1,
   (unknown_target_skipped engMissing worldEmpty 5 "X" rfl
      (by intro k e h; simp [EntityStore.get_entity, assoc_get, worldEmpty] at h)).2.1⟩

/-- The pursuing helicopter of the repository test
`test_pursue_creates_intercept_movement`. -/
def heliEnt : Entity :=
  { entity_id := "HELI-1", entity_type := "RMAF_HELICOPTER",
    position := { latitude := 5, longitude := 118 } }

/-- The hostile vessel of that test. -/
def badEnt : Entity :=
  { entity_id := "BAD-1", entity_type := "HOSTILE_VESSEL",
    position := { latitude := 4.5, longitude := 118.5 } }

/-- The `pursue` order of that test, due 5 minutes in. -/
def pursueEvent : ScenarioEvent :=
  { time_offset := 300, event_type := "ORDER", description := "Pursue",
    target := some "HELI-1", action := some "pursue",
    intercept_target := some "BAD-1" }

/-- The world of that test: both entities in the store, no movements. -/
def worldPursue : World :=
  ⟨⟨[("HELI-1", heliEnt), ("BAD-1", badEnt)]⟩, []⟩

/-- The engine of that test, holding only the `pursue` event. -/
def enginePursue : EventEngine := ⟨[pursueEvent], 0, [], ∅⟩

/-- C3 (code evaluated at the failing input): firing a `pursue` event
with a present target does NOT create an Intercept strategy and does
NOT set status INTERCEPTING — `_apply_action` handles only the string
`"intercept"`, so `pursue` falls into the unhandled-action branch,
which merely sets status ACTIVE and leaves the movements map untouched.
The repository's own test `test_pursue_creates_intercept_movement`
(and the spec's action table) expect an InterceptMovement and
INTERCEPTING instead. -/
theorem pursue_event_not_intercept :
    assoc_get ((enginePursue.tick_indexed worldPursue 300).2.1).movements
      "HELI-1" = none ∧
    ((enginePursue.tick_indexed worldPursue 300).2.1).store.get_entity
      "HELI-1" = some heliEnt ∧
    heliEnt.status = EntityStatus.ACTIVE ∧
    (enginePursue.tick_indexed worldPursue 300).2.2 = [(0, pursueEvent)] := by
  have e1 : ("pursue" : String) ≠ "" := by decide
  have e2 : ("pursue" : String) ≠ "intercept" := by decide
  have e3 : ("pursue" : String) ≠ "deploy" := by decide
  have e4 : ("pursue" : String) ≠ "respond" := by decide
  have e5 : ("pursue" : String) ≠ "search_area" := by decide
  have e6 : ("pursue" : String) ≠ "patrol" := by decide
  have e7 : ("pursue" : String) ≠ "lockdown" := by decide
  have e8 : ("pursue" : String) ≠ "secure" := by decide
  have e9 : ("pursue" : String) ≠ "activate" := by decide
  have e10 : ("pursue" : String) ≠ "escort_to_port" := by decide
  refine ⟨?_, ?_, rfl, ?_⟩ <;>
    norm_num [EventEngine.tick_indexed, tick_go, fire_event, fire_targets,
      apply_action, enginePursue, worldPursue, pursueEvent, heliEnt, badEnt,
      EntityStore.get_entity, EntityStore.upsert_entity, assoc_get, assoc_set,
      List.enum, List.enumFrom, e1, e2, e3, e4, e5, e6, e7, e8, e9, e10]

end EdgeC2Sim
